import Mathlib

/-
Verification of the WebSocket echo/broadcast server of this repository.

The repository ships two WebSocket message handlers:
  * src/src/ws/handler.ts      - the checked-in handler: every inbound message
    is rebroadcast, with the text "Broadcast: " prepended, to every other
    client whose readyState is OPEN; there is no per-kind routing.
  * src/setup.sh (WS_HANDLER_TS heredoc) - the handler the setup script writes
    to src/ws/handler.ts: it JSON-parses each frame and routes by the `type`
    field (ping -> pong, broadcast -> fan-out to other OPEN clients,
    default -> echo back to sender), replying with an error message to the
    sender on parse failure.

Both are embedded below as pure functions from the registry of connected
clients (the `wss.clients` set, each client carrying its `readyState`) and an
inbound frame to the ordered list of send events the handler performs.
The REST health route of src/unnamed/part_001 is embedded as `healthHandler`.
-/

/-- The four readyState values of a `ws` WebSocket. -/
inductive ReadyState where
  | CONNECTING
  | OPEN
  | CLOSING
  | CLOSED
  deriving DecidableEq, Repr

/-- One member of the `wss.clients` set: the socket identity (object identity
in the source, modelled as a numeric id) and its current readyState. -/
structure Client where
  id : Nat
  readyState : ReadyState
  deriving DecidableEq, Repr

/-- The parsed shape of an inbound frame in the setup.sh handler:
`interface ClientMessage { type: string; data?: any }` (the unused optional
timestamp field is omitted; `data` is carried opaquely as text). -/
structure ClientMsg where
  ty : String
  data : Option String
  deriving DecidableEq, Repr

/-- An inbound frame as seen by the setup.sh handler: either it JSON-parses to
a `ClientMessage` or `JSON.parse` throws and the catch branch runs. -/
inductive Frame where
  | malformed (raw : String)
  | ok (m : ClientMsg)
  deriving DecidableEq, Repr

/-- The tagged messages the setup.sh handler sends (timestamps, which are
wall-clock strings, are not modelled; the constant `from: "server"` field of
the broadcast payload is implicit in the tag). -/
inductive ServerMsg where
  | welcome
  | pong
  | broadcastMsg (data : Option String)
  | echoReply (original : ClientMsg)
  | errorReply (msg : String)
  deriving DecidableEq, Repr

/-- The broadcast fan-out loop shared verbatim by both handlers:
`wss.clients.forEach((client) => { if (client !== ws && client.readyState ===
WebSocket.OPEN) { client.send(out); } })`, collecting the send events in
iteration order. `selfId` is the identity of the sender socket `ws` and `out`
the outbound text computed before the loop. -/
def fanout {α : Type} (clients : List Client) (selfId : Nat) (out : α) :
    List (Nat × α) :=
  clients.foldl
    (fun acc client =>
      if client.id ≠ selfId ∧ client.readyState = ReadyState.OPEN then
        acc ++ [(client.id, out)]
      else acc)
    []

/-- The message callback of the checked-in handler src/src/ws/handler.ts:
whatever the inbound text is, it broadcasts `"Broadcast: " + message` to every
other OPEN client. -/
def shippedSends (clients : List Client) (selfId : Nat) (message : String) :
    List (Nat × String) :=
  fanout clients selfId ("Broadcast: " ++ message)

/-- The message callback of the setup.sh handler (WS_HANDLER_TS): on parse
failure reply to the sender with the error message; otherwise switch on
`message.type` with cases "ping", "broadcast" and a default echo. -/
def setupSends (clients : List Client) (selfId : Nat) (fr : Frame) :
    List (Nat × ServerMsg) :=
  match fr with
  | Frame.malformed _ => [(selfId, ServerMsg.errorReply "Invalid JSON format")]
  | Frame.ok m =>
    if m.ty = "ping" then
      [(selfId, ServerMsg.pong)]
    else if m.ty = "broadcast" then
      fanout clients selfId (ServerMsg.broadcastMsg m.data)
    else
      [(selfId, ServerMsg.echoReply m)]

/-- One handler step as a state transformer: the send events together with the
registry afterwards. The message callback of the setup.sh handler never
mutates the client set and never closes a socket, so the registry is returned
unchanged; `wss.clients` is mutated only by the `ws` library on connection
and close events. -/
def setupStep (clients : List Client) (selfId : Nat) (fr : Frame) :
    List (Nat × ServerMsg) × List Client :=
  (setupSends clients selfId fr, clients)

/-- The full send trace of one connection in the setup.sh handler: on the
connection event the server sends the welcome message to the new socket, and
afterwards each inbound frame is handled by the message callback. `clients`
is the registry (the new socket included) and `frames` the inbound frames in
arrival order. -/
def sessionTrace (clients : List Client) (selfId : Nat) (frames : List Frame) :
    List (Nat × ServerMsg) :=
  (selfId, ServerMsg.welcome) :: frames.flatMap (fun fr => setupSends clients selfId fr)

/-- The fan-out predicate of the shared broadcast loop, as a Boolean test. -/
def fanoutPred (selfId : Nat) (c : Client) : Bool :=
  decide (c.id ≠ selfId ∧ c.readyState = ReadyState.OPEN)

theorem fanout_foldl_eq {α : Type} (selfId : Nat) (out : α) :
    ∀ (l : List Client) (acc : List (Nat × α)),
      l.foldl
        (fun acc client =>
          if client.id ≠ selfId ∧ client.readyState = ReadyState.OPEN then
            acc ++ [(client.id, out)]
          else acc)
        acc
      = acc ++ (l.filter (fanoutPred selfId)).map (fun c => (c.id, out)) := by
  intro l
  induction l with
  | nil => intro acc; simp
  | cons c l ih =>
    intro acc
    by_cases hc : c.id ≠ selfId ∧ c.readyState = ReadyState.OPEN
    · simp [List.foldl_cons, hc, ih, List.filter_cons, fanoutPred]
    · simp [List.foldl_cons, hc, ih, List.filter_cons, fanoutPred]

/-- Characterization of the broadcast loop: the send events are exactly the
clients passing the identity-and-OPEN test, in registry order, each sent the
one outbound value. -/
theorem fanout_eq {α : Type} (clients : List Client) (selfId : Nat) (out : α) :
    fanout clients selfId out
      = (clients.filter (fanoutPred selfId)).map (fun c => (c.id, out)) := by
  simpa using fanout_foldl_eq selfId out clients []

theorem mem_fanout {α : Type} {clients : List Client} {selfId : Nat} {out : α}
    {q : Nat × α} :
    q ∈ fanout clients selfId out ↔
      ∃ c, c ∈ clients ∧ c.id ≠ selfId ∧ c.readyState = ReadyState.OPEN ∧
        q = (c.id, out) := by
  rw [fanout_eq]
  simp only [List.mem_map, List.mem_filter, fanoutPred, decide_eq_true_eq]
  constructor
  · rintro ⟨c, ⟨hc, hp⟩, rfl⟩
    exact ⟨c, hc, hp.1, hp.2, rfl⟩
  · rintro ⟨c, hc, h1, h2, rfl⟩
    exact ⟨c, ⟨hc, h1, h2⟩, rfl⟩

/-- A connection as the `ws` library holds it when the state effect of `send`
matters: identity, readyState, and the socket send buffer. `WebSocket.send`
on the `ws` library appends to this buffer (`bufferedAmount` grows without
bound); it has no capacity limit and cannot fail with a queue-full error. -/
structure Conn where
  id : Nat
  readyState : ReadyState
  buffer : List String
  deriving DecidableEq, Repr

/-- `client.send(m)` as the checked-in handler uses it: the message is
appended to the client socket buffer unconditionally; nothing else about the
connection changes. There is no capacity check anywhere in src. -/
def wsSend (c : Conn) (m : String) : Conn :=
  { c with buffer := c.buffer ++ [m] }

/-- The state effect of the broadcast loop of src/src/ws/handler.ts on the
registry: each client that is not the sender and is OPEN has the outbound
text appended to its own buffer; every other client is untouched. Each send
goes to a distinct per-client buffer, so the clients are independent. -/
def shippedBroadcast (clients : List Conn) (selfId : Nat) (message : String) :
    List Conn :=
  clients.map
    (fun client =>
      if client.id ≠ selfId ∧ client.readyState = ReadyState.OPEN then
        wsSend client ("Broadcast: " ++ message)
      else client)

/-- The GET /health route of src/unnamed/part_001 (src/api/routes.ts):
`res.status(200).json({ status: "UP" })`, embedded as the field list of the
JSON body. The route reads nothing: the routes module does not import the
WebSocket module, so the response is the same constant for every registry
state, which the explicit (unused) registry argument records. -/
def healthHandler (_registry : List Client) : List (String × String) :=
  [("status", "UP")]

/-- The lifecycle states of the spec Connection state machine. -/
inductive ConnState where
  | Connecting
  | Open
  | Closing
  | Closed
  deriving DecidableEq, Repr

/-- Modelled from the spec: the Connection `close(reason)` operation is
absent from the repository sources (src only registers a logging callback
for the transport close event in src/src/ws/handler.ts lines 20 to 22 and in
the setup.sh handler; closing itself is left to the `ws` library). Per the
spec, `close` requests graceful shutdown, moving a connection that is not yet
Closing or Closed to Closing, and is idempotent: on an already Closing or
Closed connection it is a no-op and returns no error. The result pairs the
new state with an optional error, which close never produces. -/
def closeConn (s : ConnState) : ConnState × Option String :=
  match s with
  | ConnState.Closing => (ConnState.Closing, none)
  | ConnState.Closed => (ConnState.Closed, none)
  | _ => (ConnState.Closing, none)

theorem setupSends_ne_welcome (clients : List Client) (selfId : Nat)
    (fr : Frame) :
    ∀ q ∈ setupSends clients selfId fr, q.2 ≠ ServerMsg.welcome := by
  intro q hq
  match fr with
  | Frame.malformed raw =>
    simp only [setupSends, List.mem_singleton] at hq
    subst hq; simp
  | Frame.ok m =>
    simp only [setupSends] at hq
    by_cases h1 : m.ty = "ping"
    · rw [if_pos h1] at hq
      simp only [List.mem_singleton] at hq
      subst hq; simp
    · rw [if_neg h1] at hq
      by_cases h2 : m.ty = "broadcast"
      · rw [if_pos h2] at hq
        obtain ⟨c, -, -, -, rfl⟩ := mem_fanout.mp hq
        simp
      · rw [if_neg h2] at hq
        simp only [List.mem_singleton] at hq
        subst hq; simp

/-- C2: a frame parsing to type "ping" produces exactly one pong-tagged send,
addressed to the sender, and no send to any other connection: the whole send
list of the handler step is the single pong to the sender. -/
theorem ping_gets_unicast_pong (clients : List Client) (selfId : Nat)
    (d : Option String) :
    setupSends clients selfId (Frame.ok ⟨"ping", d⟩)
      = [(selfId, ServerMsg.pong)] := by
  simp [setupSends]

/-- C3: a frame that fails to parse produces exactly one error reply,
addressed to the sender only and describing the failure, and the registry is
unchanged: no connection is closed or altered by the bad frame, so the sender
stays in whatever readyState it had, in particular Open. -/
theorem malformed_gets_unicast_error_registry_unchanged (clients : List Client)
    (selfId : Nat) (raw : String) :
    setupStep clients selfId (Frame.malformed raw)
      = ([(selfId, ServerMsg.errorReply "Invalid JSON format")], clients) :=
  rfl

/-- C4: a parsed frame whose type is neither "ping" nor "broadcast" (the echo
request and every unrecognized type) produces exactly one echo-tagged send
carrying the original message, addressed to the sender, and nothing to any
other connection. -/
theorem unrecognized_type_echoes_to_sender (clients : List Client)
    (selfId : Nat) (m : ClientMsg) (h1 : m.ty ≠ "ping")
    (h2 : m.ty ≠ "broadcast") :
    setupSends clients selfId (Frame.ok m)
      = [(selfId, ServerMsg.echoReply m)] := by
  simp [setupSends, h1, h2]

theorem unrecognized_type_echoes_to_sender_witness :
    (("echo" : String) ≠ "ping" ∧ ("echo" : String) ≠ "broadcast")
    ∧ setupSends [⟨0, ReadyState.OPEN⟩, ⟨1, ReadyState.OPEN⟩] 0
        (Frame.ok ⟨"echo", some "x"⟩)
      = [(0, ServerMsg.echoReply ⟨"echo", some "x"⟩)] :=
  ⟨⟨by decide, by decide⟩,
    unrecognized_type_echoes_to_sender [⟨0, ReadyState.OPEN⟩, ⟨1, ReadyState.OPEN⟩]
      0 ⟨"echo", some "x"⟩ (by decide) (by decide)⟩

/-- C9: the checked-in handler of src/src/ws/handler.ts sends, for every
inbound text whatsoever, exactly the string "Broadcast: " followed by that
text, to exactly the other clients in the OPEN readyState; and the set of
destinations is the same whatever the inbound text is, so no per-kind routing
(ping, echo or malformed reply) occurs. -/
theorem shipped_rebroadcasts_every_message (clients : List Client)
    (selfId : Nat) (message : String) :
    shippedSends clients selfId message
      = (clients.filter (fanoutPred selfId)).map
          (fun c => (c.id, "Broadcast: " ++ message))
    ∧ ∀ m1 m2 : String,
        (shippedSends clients selfId m1).map Prod.fst
          = (shippedSends clients selfId m2).map Prod.fst := by
  constructor
  · simpa [shippedSends] using
      fanout_eq clients selfId ("Broadcast: " ++ message)
  · intro m1 m2
    simp [shippedSends, fanout_eq, List.map_map, Function.comp]

/-- C10: in the broadcast fan-out of the checked-in handler, every send event
targets a registered client that is OPEN and is not the sender; and when the
client identities are distinct, a registered client in any non-OPEN state is
never the target of a send. -/
theorem broadcast_skips_non_open (clients : List Client) (selfId : Nat)
    (message : String) :
    (∀ q ∈ shippedSends clients selfId message,
        ∃ c, c ∈ clients ∧ c.id = q.1 ∧ c.readyState = ReadyState.OPEN ∧
          c.id ≠ selfId)
    ∧ ((clients.map Client.id).Nodup →
        ∀ c, c ∈ clients → c.readyState ≠ ReadyState.OPEN →
          ∀ q ∈ shippedSends clients selfId message, q.1 ≠ c.id) := by
  constructor
  · intro q hq
    obtain ⟨c, hc, hne, hopen, rfl⟩ := mem_fanout.mp hq
    exact ⟨c, hc, rfl, hopen, hne⟩
  · intro hnd c hc hno q hq hqc
    obtain ⟨c', hc', hne', hopen', rfl⟩ := mem_fanout.mp hq
    have : c' = c := List.inj_on_of_nodup_map hnd hc' hc hqc
    subst this
    exact hno hopen'

theorem broadcast_skips_non_open_witness :
    (([⟨0, ReadyState.OPEN⟩, ⟨1, ReadyState.CLOSING⟩, ⟨2, ReadyState.OPEN⟩] :
        List Client).map Client.id).Nodup
    ∧ (⟨1, ReadyState.CLOSING⟩ : Client)
        ∈ ([⟨0, ReadyState.OPEN⟩, ⟨1, ReadyState.CLOSING⟩, ⟨2, ReadyState.OPEN⟩] :
            List Client)
    ∧ ReadyState.CLOSING ≠ ReadyState.OPEN
    ∧ (2, "Broadcast: hi")
        ∈ shippedSends
            [⟨0, ReadyState.OPEN⟩, ⟨1, ReadyState.CLOSING⟩, ⟨2, ReadyState.OPEN⟩]
            0 "hi"
    ∧ (2 : Nat) ≠ 1 :=
  ⟨by decide, by decide, by decide, by decide,
    (broadcast_skips_non_open
        [⟨0, ReadyState.OPEN⟩, ⟨1, ReadyState.CLOSING⟩, ⟨2, ReadyState.OPEN⟩]
        0 "hi").2
      (by decide) ⟨1, ReadyState.CLOSING⟩ (by decide) (by decide)
      (2, "Broadcast: hi") (by decide)⟩

/-- A concrete registry refuting delivery to every registered connection:
client 0 (the sender, OPEN) and client 1, registered but still CONNECTING. -/
def regC1 : List Client := [⟨0, ReadyState.OPEN⟩, ⟨1, ReadyState.CONNECTING⟩]

/-- C1 (claim as stated is false): with client 1 registered in the CONNECTING
readyState at call time, the broadcast of sender 0 delivers nothing at all to
client 1, although client 1 is a connection other than the sender registered
at the time of the call: delivery is not to every other registered
connection. -/
theorem broadcast_misses_registered_connecting :
    ¬ ∀ c ∈ regC1, c.id ≠ 0 →
        ∃ m, (c.id, m) ∈ setupSends regC1 0 (Frame.ok ⟨"broadcast", some "hi"⟩) := by
  intro h
  obtain ⟨m, hm⟩ := h ⟨1, ReadyState.CONNECTING⟩ (by decide) (by decide)
  have he : setupSends regC1 0 (Frame.ok ⟨"broadcast", some "hi"⟩) = [] := by
    rw [setupSends, if_neg (by decide), if_pos rfl, fanout_eq]
    decide
  rw [he] at hm
  exact List.not_mem_nil _ hm

/-- C1 (amended): the broadcast case never sends to the sender, sends the
broadcast payload to every other registered connection that is in the OPEN
readyState at call time, and, when client identities are distinct, no
destination appears twice, so each such connection receives the message
exactly once. -/
theorem broadcast_excludes_sender_reaches_open (clients : List Client)
    (selfId : Nat) (d : Option String) :
    (∀ q ∈ setupSends clients selfId (Frame.ok ⟨"broadcast", d⟩), q.1 ≠ selfId)
    ∧ (∀ c ∈ clients, c.id ≠ selfId → c.readyState = ReadyState.OPEN →
        (c.id, ServerMsg.broadcastMsg d)
          ∈ setupSends clients selfId (Frame.ok ⟨"broadcast", d⟩))
    ∧ ((clients.map Client.id).Nodup →
        ((setupSends clients selfId (Frame.ok ⟨"broadcast", d⟩)).map
            Prod.fst).Nodup) := by
  have hne1 : (⟨"broadcast", d⟩ : ClientMsg).ty ≠ "ping" := by simp
  have hred : setupSends clients selfId (Frame.ok ⟨"broadcast", d⟩)
      = fanout clients selfId (ServerMsg.broadcastMsg d) := by
    rw [setupSends, if_neg hne1, if_pos rfl]
  refine ⟨?_, ?_, ?_⟩
  · intro q hq
    rw [hred] at hq
    obtain ⟨c, -, hne, -, rfl⟩ := mem_fanout.mp hq
    exact hne
  · intro c hc hne hopen
    rw [hred]
    exact mem_fanout.mpr ⟨c, hc, hne, hopen, rfl⟩
  · intro hnd
    rw [hred, fanout_eq, List.map_map]
    have h1 : ((clients.filter (fanoutPred selfId)).map Client.id).Nodup :=
      hnd.sublist ((List.filter_sublist clients).map Client.id)
    simpa [Function.comp] using h1

theorem broadcast_excludes_sender_reaches_open_witness :
    ((⟨1, ReadyState.OPEN⟩ : Client)
        ∈ ([⟨0, ReadyState.OPEN⟩, ⟨1, ReadyState.OPEN⟩, ⟨2, ReadyState.CONNECTING⟩] :
            List Client)
      ∧ (1 : Nat) ≠ 0 ∧ ReadyState.OPEN = ReadyState.OPEN)
    ∧ (1, ServerMsg.broadcastMsg (some "hi"))
        ∈ setupSends
            [⟨0, ReadyState.OPEN⟩, ⟨1, ReadyState.OPEN⟩, ⟨2, ReadyState.CONNECTING⟩]
            0 (Frame.ok ⟨"broadcast", some "hi"⟩) :=
  ⟨⟨by decide, by decide, rfl⟩,
    (broadcast_excludes_sender_reaches_open
        [⟨0, ReadyState.OPEN⟩, ⟨1, ReadyState.OPEN⟩, ⟨2, ReadyState.CONNECTING⟩]
        0 (some "hi")).2.1
      ⟨1, ReadyState.OPEN⟩ (by decide) (by decide) rfl⟩

/-- C5 (claim as stated is false): the health response is the one constant
field list with the single field "status"; in particular it is identical for
a registry of two connections and for an empty registry, and no field of it
carries the current connection count (here 2). -/
theorem health_response_lacks_connection_count :
    healthHandler [⟨0, ReadyState.OPEN⟩, ⟨1, ReadyState.OPEN⟩] = healthHandler []
    ∧ (healthHandler []).map Prod.fst = ["status"]
    ∧ ¬ ∃ p, p ∈ healthHandler [⟨0, ReadyState.OPEN⟩, ⟨1, ReadyState.OPEN⟩]
          ∧ p.2 = toString
              ([⟨0, ReadyState.OPEN⟩, ⟨1, ReadyState.OPEN⟩] : List Client).length := by
  refine ⟨rfl, rfl, ?_⟩
  rintro ⟨p, hp, hv⟩
  have : p = ("status", "UP") := by
    simpa [healthHandler] using hp
  subst this
  revert hv
  decide

/-- C5 (amended): for every registry state the health query returns the same
synchronous record, an up indicator only ({status: UP}); no connection count
and no other core state is exposed to the REST layer. -/
theorem health_constant_up_only (registry other : List Client) :
    healthHandler registry = [("status", "UP")]
    ∧ healthHandler registry = healthHandler other :=
  ⟨rfl, rfl⟩

/-- C6 (claim as stated is false): `send` appends to the socket buffer
whatever its length already is, and there is no capacity bound at which it
instead fails and moves the connection from Open toward Closing: for every
candidate capacity, a connection at that buffer length still accepts the
message and keeps its readyState. -/
theorem send_never_queue_full :
    wsSend ⟨7, ReadyState.OPEN, ["a", "b", "c"]⟩ "d"
      = ⟨7, ReadyState.OPEN, ["a", "b", "c", "d"]⟩
    ∧ ¬ ∃ cap : Nat, ∀ (c : Conn) (m : String),
        c.readyState = ReadyState.OPEN → cap ≤ c.buffer.length →
          (wsSend c m).readyState = ReadyState.CLOSING := by
  refine ⟨rfl, ?_⟩
  rintro ⟨cap, h⟩
  have hc := h ⟨0, ReadyState.OPEN, List.replicate cap ""⟩ "x" rfl (by simp)
  simp [wsSend] at hc

/-- C6 (amended): `send` never fails and never transitions a connection: the
broadcast fan-out leaves every readyState unchanged, and every other OPEN
connection has the broadcast appended to its own buffer, whatever the buffer
contents of any connection, so one stalled connection with an arbitrarily
long buffer affects no other delivery. -/
theorem broadcast_enqueues_unbounded_isolated (clients : List Conn)
    (selfId : Nat) (message : String) :
    ((shippedBroadcast clients selfId message).map Conn.readyState
        = clients.map Conn.readyState)
    ∧ (∀ c ∈ clients, c.readyState = ReadyState.OPEN → c.id ≠ selfId →
        (⟨c.id, c.readyState, c.buffer ++ ["Broadcast: " ++ message]⟩ : Conn)
          ∈ shippedBroadcast clients selfId message) := by
  constructor
  · rw [shippedBroadcast, List.map_map]
    refine List.map_congr_left ?_
    intro c _
    by_cases hc : c.id ≠ selfId ∧ c.readyState = ReadyState.OPEN
    · simp [hc, wsSend]
    · simp [hc]
  · intro c hc hopen hne
    have hf : (⟨c.id, c.readyState, c.buffer ++ ["Broadcast: " ++ message]⟩ : Conn)
        = (if c.id ≠ selfId ∧ c.readyState = ReadyState.OPEN then
            wsSend c ("Broadcast: " ++ message)
          else c) := by
      rw [if_pos ⟨hne, hopen⟩, wsSend]
    rw [shippedBroadcast, hf]
    exact List.mem_map_of_mem _ hc

theorem broadcast_enqueues_unbounded_isolated_witness :
    ((⟨1, ReadyState.OPEN, ["old"]⟩ : Conn)
        ∈ ([⟨0, ReadyState.OPEN, []⟩, ⟨1, ReadyState.OPEN, ["old"]⟩] : List Conn)
      ∧ ReadyState.OPEN = ReadyState.OPEN ∧ (1 : Nat) ≠ 0)
    ∧ (⟨1, ReadyState.OPEN, ["old", "Broadcast: hi"]⟩ : Conn)
        ∈ shippedBroadcast
            [⟨0, ReadyState.OPEN, []⟩, ⟨1, ReadyState.OPEN, ["old"]⟩] 0 "hi" :=
  ⟨⟨by decide, rfl, by decide⟩,
    (broadcast_enqueues_unbounded_isolated
        [⟨0, ReadyState.OPEN, []⟩, ⟨1, ReadyState.OPEN, ["old"]⟩] 0 "hi").2
      ⟨1, ReadyState.OPEN, ["old"]⟩ (by decide) rfl (by decide)⟩

/-- C7: closing is idempotent. For every lifecycle state, applying `close` a
second time to the state the first call produced leaves that state fixed and
returns no error, whether the connection was already Closing or Closed or
not; the first call also returns no error. -/
theorem close_idempotent_no_error (s : ConnState) :
    closeConn (closeConn s).1 = ((closeConn s).1, none)
    ∧ (closeConn s).2 = none := by
  cases s <;> exact ⟨rfl, rfl⟩

/-- C8: in the send trace of a connection session, the very first send is the
single welcome message to the new client, and no later handler output is
welcome-tagged: the welcome is sent exactly once, before any inbound frame of
the session is processed. -/
theorem welcome_exactly_once_first (clients : List Client) (selfId : Nat)
    (frames : List Frame) :
    (sessionTrace clients selfId frames).head? = some (selfId, ServerMsg.welcome)
    ∧ (sessionTrace clients selfId frames).countP
        (fun q => decide (q.2 = ServerMsg.welcome)) = 1 := by
  refine ⟨rfl, ?_⟩
  have h0 : (frames.flatMap (fun fr => setupSends clients selfId fr)).countP
      (fun q => decide (q.2 = ServerMsg.welcome)) = 0 := by
    refine List.countP_eq_zero.mpr ?_
    intro q hq
    obtain ⟨fr, -, hq'⟩ := List.mem_flatMap.mp hq
    simpa using setupSends_ne_welcome clients selfId fr q hq'
  simp [sessionTrace, List.countP_cons, h0]
